import Mathlib

/-!
Verification of `mbu_process_dashboard_shared_components/process_step_run.py`.

The module is embedded shallowly:

* JSON values become the inductive `Json`; a parsed HTTP response is a
  `Response` carrying its parsed body (`json`) and `status_code`.
* The injected HTTP client and the three identity-resolution collaborators
  (`get_dashboard_process_id`, `get_dashboard_step_id`, `get_dashboard_run_id`,
  which live outside this module and are treated by the spec as black boxes)
  are modelled as function-valued records `Client` and `Resolvers`; a call
  either raises (`Except.error`) a Python exception (`PyExc`) or returns.
* Each operation also returns the ordered list of collaborator calls it made
  (`CallEvent`), so that call ordering and fail-fast behaviour are provable.
* Python exception objects passed as the `failure` argument are modelled by
  `PyException`: class name (`type(e).__name__`), `str(e)`, whether the object
  is a `BusinessError` instance, the string rendering of `e.__traceback__`
  when one is attached, and the object's truthiness (`bool(e)`).
* `datetime.now(timezone.utc)` is an explicit input `DateTimeUTC`;
  `isoformat(timespec="milliseconds")` on an aware UTC datetime and the
  subsequent `.replace("+00:00", "Z")` are modelled character-faithfully.
-/

/-- JSON values: the universe of parsed HTTP bodies and update payloads.
Python `dict`s become association lists (`obj`). -/
inductive Json where
  | null : Json
  | bool : Bool → Json
  | num : Int → Json
  | str : String → Json
  | arr : List Json → Json
  | obj : List (String × Json) → Json

/-- Python exceptions that operations can raise: the `RuntimeError` raised by
this module, and any other exception propagating from a collaborator. -/
inductive PyExc where
  | runtimeError (msg : String)
  | other (msg : String)
deriving DecidableEq

/-- A Python exception object as observed by `build_step_run_update`:
`clsName` is `type(e).__name__`, `msg` is `str(e)`, `isBusinessError` is
`isinstance(e, BusinessError)` (the capability marking expected domain
failures), `tracebackStr` is `str(e.__traceback__)` when a traceback is
attached and `none` otherwise, and `toBool` is the object's truthiness. -/
structure PyException where
  clsName : String
  msg : String
  isBusinessError : Bool
  tracebackStr : Option String
  toBool : Bool

/-- An HTTP response as this module consumes it: the parsed JSON body
(`res.json()`) and the integer HTTP status code (`res.status_code`). -/
structure Response where
  json : Json
  status_code : Nat

/-- The injected `ProcessDashboardClient` collaborator: `get path` and
`patch path body` each either raise or produce a `Response`. -/
structure Client where
  get : String → Except PyExc Response
  patch : String → Json → Except PyExc Response

/-- The three identity-resolution collaborators imported from sibling
modules; each resolves to an integer id or raises a not-found error. -/
structure Resolvers where
  get_dashboard_process_id : String → Except PyExc Int
  get_dashboard_step_id : Int → String → Except PyExc Int
  get_dashboard_run_id : Int → String → Except PyExc Int

/-- One outgoing collaborator call, recorded in order of execution. -/
inductive CallEvent where
  | callProcessId (process_name : String)
  | callStepId (process_id : Int) (step_name : String)
  | callRunId (process_id : Int) (cpr : String)
  | httpGet (path : String)
  | httpPatch (path : String) (body : Json)

/-- Python `dict.get(key)` on a parsed JSON object: the stored value when the
key is present, else `None`; on a non-dict body the attribute lookup raises.
A JSON `null` value and an absent key both surface as Python `None`. -/
def Json.get (j : Json) (key : String) : Except PyExc Json :=
  match j with
  | .obj fields =>
      match fields.lookup key with
      | some v => .ok v
      | none => .ok Json.null
  | _ => .error (.other "AttributeError")

/-- Python `x is None` on a modelled JSON value. -/
def Json.isNull : Json → Bool
  | .null => true
  | _ => false

/-- The message of the `RuntimeError` raised on a missing step-run id. -/
def notFoundMsg : String := "Step run ID not found for process/step/CPR combination."

/-- Embedding of `get_step_run_id_for_process_step_cpr`: resolve process id,
step id and run id in sequence, then `GET` the step-run and extract its `id`
field, raising `RuntimeError` when it is `None`.  Returns the result together
with the ordered trace of collaborator calls made. -/
def get_step_run_id_for_process_step_cpr (r : Resolvers) (client : Client)
    (process_name step_name cpr : String) : Except PyExc Json × List CallEvent :=
  match r.get_dashboard_process_id process_name with
  | .error e => (.error e, [.callProcessId process_name])
  | .ok process_id =>
    match r.get_dashboard_step_id process_id step_name with
    | .error e => (.error e, [.callProcessId process_name, .callStepId process_id step_name])
    | .ok step_id =>
      match r.get_dashboard_run_id process_id cpr with
      | .error e =>
          (.error e, [.callProcessId process_name, .callStepId process_id step_name,
                      .callRunId process_id cpr])
      | .ok run_id =>
        let path := s!"step-runs/run/{run_id}/step/{step_id}?include_deleted=false"
        let trace := [CallEvent.callProcessId process_name,
                      .callStepId process_id step_name,
                      .callRunId process_id cpr, .httpGet path]
        match client.get path with
        | .error e => (.error e, trace)
        | .ok res =>
          match res.json.get "id" with
          | .error e => (.error e, trace)
          | .ok step_run_id =>
            if step_run_id.isNull then
              (.error (.runtimeError notFoundMsg), trace)
            else
              (.ok step_run_id, trace)

/-- The decimal digit characters used by the fixed-width timestamp fields. -/
def digitChar (n : Nat) : Char :=
  if n = 0 then '0' else if n = 1 then '1' else if n = 2 then '2'
  else if n = 3 then '3' else if n = 4 then '4' else if n = 5 then '5'
  else if n = 6 then '6' else if n = 7 then '7' else if n = 8 then '8' else '9'

/-- Two-digit zero-padded rendering, as `isoformat` prints month, day, hour,
minute and second (each of which `datetime` keeps below 100). -/
def pad2 (n : Nat) : String := String.mk [digitChar (n / 10 % 10), digitChar (n % 10)]

/-- Three-digit zero-padded rendering of the millisecond field. -/
def pad3 (n : Nat) : String :=
  String.mk [digitChar (n / 100 % 10), digitChar (n / 10 % 10), digitChar (n % 10)]

/-- Four-digit zero-padded rendering of the year (`datetime` bounds the year
to 1..9999). -/
def pad4 (n : Nat) : String :=
  String.mk [digitChar (n / 1000 % 10), digitChar (n / 100 % 10),
             digitChar (n / 10 % 10), digitChar (n % 10)]

/-- One captured `datetime.now(timezone.utc)` instant. -/
structure DateTimeUTC where
  year : Nat
  month : Nat
  day : Nat
  hour : Nat
  minute : Nat
  second : Nat
  millisecond : Nat

/-- The date-time body of `isoformat(timespec="milliseconds")`, without the
UTC offset. -/
def isoBody (t : DateTimeUTC) : String :=
  pad4 t.year ++ "-" ++ pad2 t.month ++ "-" ++ pad2 t.day ++ "T" ++
    pad2 t.hour ++ ":" ++ pad2 t.minute ++ ":" ++ pad2 t.second ++ "." ++
    pad3 t.millisecond

/-- `datetime.isoformat(timespec="milliseconds")` on an aware UTC datetime:
the millisecond-precision body followed by the `+00:00` offset. -/
def isoformatMilliseconds (t : DateTimeUTC) : String := isoBody t ++ "+00:00"

/-- Python `str.replace("+00:00", "Z")` specialised to the fixed arguments of
the source: every non-overlapping occurrence of `+00:00`, scanned left to
right, is replaced by `Z`. -/
def replacePlus : List Char → List Char
  | '+' :: '0' :: '0' :: ':' :: '0' :: '0' :: rest => 'Z' :: replacePlus rest
  | c :: rest => c :: replacePlus rest
  | [] => []

/-- The timestamp string `now` computed by `build_step_run_update`:
`datetime.now(timezone.utc).isoformat(timespec="milliseconds").replace("+00:00", "Z")`. -/
def formatTimestamp (t : DateTimeUTC) : String :=
  String.mk (replacePlus (isoformatMilliseconds t).data)

/-- The fixed localized generic failure payload emitted for non-business
errors. -/
def applicationExceptionPayload : Json :=
  Json.obj [("error_code", Json.str "ApplicationException"),
            ("message", Json.str "Processen er fejlet"),
            ("details", Json.str
              ("Digitalisering undersøger fejlen og genstarter processen.\n\n" ++
               "Kontakt Digitalisering hvis det ikke er løst efter 2 arbejdsdage."))]

/-- The `failure_data` block of `build_step_run_update`: `None` when
`failure` is absent or falsy; the business-error payload (class name,
`str(e)`, stringified traceback or `None`) for `BusinessError` instances;
the fixed `ApplicationException` payload otherwise. -/
def buildFailureData (failure : Option PyException) : Json :=
  match failure with
  | none => Json.null
  | some f =>
    if f.toBool then
      if f.isBusinessError then
        Json.obj [("error_code", Json.str f.clsName),
                  ("message", Json.str f.msg),
                  ("details",
                    match f.tracebackStr with
                    | some tb => Json.str tb
                    | none => Json.null)]
      else
        applicationExceptionPayload
    else
      Json.null

/-- Embedding of `build_step_run_update`: the PATCH payload with the given
status, one captured timestamp used for both `started_at` and `finished_at`,
and the failure block. -/
def build_step_run_update (status : String) (failure : Option PyException)
    (t : DateTimeUTC) : Json :=
  let now := formatTimestamp t
  Json.obj [("status", Json.str status),
            ("started_at", Json.str now),
            ("finished_at", Json.str now),
            ("failure", buildFailureData failure)]

/-- The top-level keys of a JSON object. -/
def Json.keysOf : Json → List String
  | .obj fields => fields.map Prod.fst
  | _ => []

/-- Embedding of `update_dashboard_step_run_by_id`: PATCH the payload to
`step-runs/{step_run_id}` and return `(res.json(), res.status_code)`
unchanged, with the trace of the single call made. -/
def update_dashboard_step_run_by_id (client : Client) (step_run_id : Int)
    (update_data : Json) : Except PyExc (Json × Nat) × List CallEvent :=
  let path := s!"step-runs/{step_run_id}"
  match client.patch path update_data with
  | .error e => (.error e, [.httpPatch path update_data])
  | .ok res => (.ok (res.json, res.status_code), [.httpPatch path update_data])

/-- Resolvers that succeed with ids 1, 2 and 3; used to exercise the
theorems on concrete inputs. -/
def witnessResolvers : Resolvers :=
  ⟨fun _ => .ok 1, fun _ _ => .ok 2, fun _ _ => .ok 3⟩

/-- A client whose GET returns a body holding `id = 5`. -/
def witnessClientFound : Client :=
  ⟨fun _ => .ok ⟨Json.obj [("id", Json.num 5)], 200⟩, fun _ _ => .ok ⟨Json.null, 200⟩⟩

/-- A client whose GET returns a body with no `id` field. -/
def witnessClientMissing : Client :=
  ⟨fun _ => .ok ⟨Json.obj [], 200⟩, fun _ _ => .ok ⟨Json.null, 200⟩⟩

/-- Resolvers whose process lookup raises, for the fail-fast theorems. -/
def failingResolvers : Resolvers :=
  ⟨fun _ => .error (.other "process not found"), fun _ _ => .ok 2, fun _ _ => .ok 3⟩

/-- Appending strings concatenates their character data. -/
theorem string_data_append (s t : String) : (s ++ t).data = s.data ++ t.data := by
  cases s; cases t; rfl

/-- No decimal digit character is the plus sign. -/
theorem digitChar_ne_plus (n : Nat) : digitChar n ≠ '+' := by
  unfold digitChar
  split_ifs <;> decide

/-- Packing a character list that extends a string's data appends to it. -/
theorem mk_append_Z (s : String) : String.mk (s.data ++ ['Z']) = s ++ "Z" := by
  cases s; rfl

/-- Two-digit fields contain no plus sign. -/
theorem plus_not_mem_pad2 (n : Nat) : '+' ∉ (pad2 n).data := by
  intro h
  simp only [pad2, List.mem_cons, List.not_mem_nil, or_false] at h
  rcases h with h | h <;> exact digitChar_ne_plus _ h.symm

/-- Three-digit fields contain no plus sign. -/
theorem plus_not_mem_pad3 (n : Nat) : '+' ∉ (pad3 n).data := by
  intro h
  simp only [pad3, List.mem_cons, List.not_mem_nil, or_false] at h
  rcases h with h | h | h <;> exact digitChar_ne_plus _ h.symm

/-- Four-digit fields contain no plus sign. -/
theorem plus_not_mem_pad4 (n : Nat) : '+' ∉ (pad4 n).data := by
  intro h
  simp only [pad4, List.mem_cons, List.not_mem_nil, or_false] at h
  rcases h with h | h | h | h <;> exact digitChar_ne_plus _ h.symm

/-- The date-time body of the ISO rendering contains no plus sign, so the
only `+00:00` occurrence in `isoformat` output is the final UTC offset. -/
theorem plus_not_mem_isoBody (t : DateTimeUTC) : '+' ∉ (isoBody t).data := by
  intro hmem
  simp only [isoBody, string_data_append, List.mem_append] at hmem
  rcases hmem with ((((((((((((h|h)|h)|h)|h)|h)|h)|h)|h)|h)|h)|h)|h)
  · exact plus_not_mem_pad4 _ h
  · revert h; decide
  · exact plus_not_mem_pad2 _ h
  · revert h; decide
  · exact plus_not_mem_pad2 _ h
  · revert h; decide
  · exact plus_not_mem_pad2 _ h
  · revert h; decide
  · exact plus_not_mem_pad2 _ h
  · revert h; decide
  · exact plus_not_mem_pad2 _ h
  · revert h; decide
  · exact plus_not_mem_pad3 _ h

/-- Scanning past a character that is not a plus sign leaves it unchanged. -/
theorem replacePlus_cons_ne (c : Char) (l : List Char) (h : c ≠ '+') :
    replacePlus (c :: l) = c :: replacePlus l := by
  conv_lhs => rw [replacePlus.eq_def]
  split
  · rename_i rest heq
    exact absurd (List.cons.inj heq).1 h
  · rename_i c2 rest2 hne heq
    injection heq with h1 h2
    subst h1
    subst h2
    rfl
  · rename_i heq
    exact absurd heq (List.cons_ne_nil c l)

/-- On a plus-free body followed by the UTC offset, the replacement rewrites
exactly the trailing offset to `Z`. -/
theorem replacePlus_append_suffix (body : List Char) (hb : '+' ∉ body) :
    replacePlus (body ++ "+00:00".data) = body ++ ['Z'] := by
  induction body with
  | nil => rfl
  | cons c rest ih =>
      have hc : c ≠ '+' := fun hcp => hb (hcp ▸ List.mem_cons_self c rest)
      have hrest : '+' ∉ rest := fun hm => hb (List.mem_cons_of_mem c hm)
      simp only [List.cons_append, replacePlus_cons_ne c _ hc, ih hrest]

/-- The rendered timestamp is the ISO millisecond body with a trailing `Z`. -/
theorem formatTimestamp_eq (t : DateTimeUTC) : formatTimestamp t = isoBody t ++ "Z" := by
  unfold formatTimestamp isoformatMilliseconds
  rw [string_data_append, replacePlus_append_suffix _ (plus_not_mem_isoBody t), mk_append_Z]

/-- The rendered timestamp never ends in the `+00:00` offset. -/
theorem formatTimestamp_no_offset_suffix (t : DateTimeUTC) :
    ¬ ∃ l : String, formatTimestamp t = l ++ "+00:00" := by
  rintro ⟨l, hl⟩
  have h1 : (formatTimestamp t).data.getLast? = some 'Z' := by
    rw [formatTimestamp_eq, string_data_append,
        List.getLast?_append_of_ne_nil _ (by decide)]
    decide
  have h2 : (formatTimestamp t).data.getLast? = some '0' := by
    rw [hl, string_data_append, List.getLast?_append_of_ne_nil _ (by decide)]
    decide
  rw [h1] at h2
  exact absurd (Option.some.inj h2) (by decide)

/-- A JSON value other than `null` fails the `is None` test. -/
theorem isNull_eq_false_of_ne {v : Json} (hv : v ≠ Json.null) : v.isNull = false := by
  cases v <;> simp [Json.isNull] at hv ⊢

/-- When the three resolvers and the GET all succeed, the lookup reduces to
the `id`-extraction step, and the trace is the four calls in order. -/
theorem get_step_run_id_reduce (r : Resolvers) (client : Client)
    (process_name step_name cpr : String) (process_id step_id run_id : Int)
    (res : Response)
    (hp : r.get_dashboard_process_id process_name = .ok process_id)
    (hs : r.get_dashboard_step_id process_id step_name = .ok step_id)
    (hr : r.get_dashboard_run_id process_id cpr = .ok run_id)
    (hg : client.get (s!"step-runs/run/{run_id}/step/{step_id}?include_deleted=false") = .ok res) :
    get_step_run_id_for_process_step_cpr r client process_name step_name cpr =
      ((match res.json.get "id" with
        | .error e => .error e
        | .ok step_run_id =>
          if step_run_id.isNull then .error (.runtimeError notFoundMsg)
          else .ok step_run_id),
       [.callProcessId process_name, .callStepId process_id step_name,
        .callRunId process_id cpr,
        .httpGet (s!"step-runs/run/{run_id}/step/{step_id}?include_deleted=false")]) := by
  unfold get_step_run_id_for_process_step_cpr
  simp only [hp, hs, hr, hg]
  cases hid : res.json.get "id" with
  | error e => simp [hid]
  | ok sri =>
      simp only [hid]
      split <;> rfl

/-- Claim C1: when the three identity collaborators succeed and the dashboard
GET response body has a non-null `id` field, the lookup returns exactly the
value of that `id` field. -/
theorem get_step_run_id_returns_id_field (r : Resolvers) (client : Client)
    (process_name step_name cpr : String) (process_id step_id run_id : Int)
    (res : Response) (v : Json)
    (hp : r.get_dashboard_process_id process_name = .ok process_id)
    (hs : r.get_dashboard_step_id process_id step_name = .ok step_id)
    (hr : r.get_dashboard_run_id process_id cpr = .ok run_id)
    (hg : client.get (s!"step-runs/run/{run_id}/step/{step_id}?include_deleted=false") = .ok res)
    (hid : res.json.get "id" = .ok v) (hv : v ≠ Json.null) :
    (get_step_run_id_for_process_step_cpr r client process_name step_name cpr).1 = .ok v := by
  rw [get_step_run_id_reduce r client process_name step_name cpr process_id step_id run_id res
        hp hs hr hg]
  simp [hid, isNull_eq_false_of_ne hv]

/-- Witness for C1 at a concrete environment whose GET body holds `id = 5`. -/
theorem get_step_run_id_returns_id_field_witness :
    (get_step_run_id_for_process_step_cpr witnessResolvers witnessClientFound "p" "s" "c").1 =
      .ok (Json.num 5) :=
  get_step_run_id_returns_id_field witnessResolvers witnessClientFound "p" "s" "c" 1 2 3
    ⟨Json.obj [("id", Json.num 5)], 200⟩ (Json.num 5) rfl rfl rfl rfl rfl (by simp)

/-- Claim C2: with the resolution chain and GET succeeding on a JSON object
body, the lookup raises the not-found `RuntimeError` exactly when the body's
`id` field is absent or null; and any returned step-run id is non-null. -/
theorem get_step_run_id_not_found_iff (r : Resolvers) (client : Client)
    (process_name step_name cpr : String) :
    (∀ (process_id step_id run_id : Int) (res : Response) (body : List (String × Json)),
      r.get_dashboard_process_id process_name = .ok process_id →
      r.get_dashboard_step_id process_id step_name = .ok step_id →
      r.get_dashboard_run_id process_id cpr = .ok run_id →
      client.get (s!"step-runs/run/{run_id}/step/{step_id}?include_deleted=false") = .ok res →
      res.json = Json.obj body →
      ((get_step_run_id_for_process_step_cpr r client process_name step_name cpr).1 =
          .error (.runtimeError notFoundMsg) ↔
        (Json.obj body).get "id" = .ok Json.null)) ∧
    (∀ v : Json,
      (get_step_run_id_for_process_step_cpr r client process_name step_name cpr).1 = .ok v →
      v ≠ Json.null) := by
  constructor
  · intro process_id step_id run_id res body hp hs hr hg hj
    rw [get_step_run_id_reduce r client process_name step_name cpr process_id step_id run_id res
          hp hs hr hg, hj]
    unfold Json.get
    cases hlook : body.lookup "id" with
    | none => simp [hlook, Json.isNull]
    | some w => cases w <;> simp [hlook, Json.isNull, notFoundMsg]
  · intro v hv
    unfold get_step_run_id_for_process_step_cpr at hv
    split at hv
    · simp at hv
    · split at hv
      · simp at hv
      · split at hv
        · simp at hv
        · simp only at hv
          split at hv
          · simp at hv
          · split at hv
            · simp at hv
            · split at hv
              · simp at hv
              · rename_i hfalse
                obtain rfl := (Except.ok.inj hv)
                intro hcontra
                rw [hcontra] at hfalse
                exact hfalse rfl

/-- Witness for C2: an empty body produces the not-found error, and a found
id (5) is non-null. -/
theorem get_step_run_id_not_found_iff_witness :
    ((get_step_run_id_for_process_step_cpr witnessResolvers witnessClientMissing "p" "s" "c").1 =
        .error (.runtimeError notFoundMsg) ↔
      (Json.obj ([] : List (String × Json))).get "id" = .ok Json.null) ∧
    ¬ ((Json.num 5) = Json.null) :=
  ⟨(get_step_run_id_not_found_iff witnessResolvers witnessClientMissing "p" "s" "c").1
      1 2 3 ⟨Json.obj [], 200⟩ [] rfl rfl rfl rfl rfl,
   (get_step_run_id_not_found_iff witnessResolvers witnessClientFound "p" "s" "c").2
      (Json.num 5) rfl⟩

/-- Claim C3: a present, truthy business error produces a failure payload with
`error_code` the error's class name, `message` its textual description, and
`details` the string rendering of its traceback when attached, else null. -/
theorem build_business_failure (status : String) (t : DateTimeUTC) (f : PyException)
    (htruthy : f.toBool = true) (hbus : f.isBusinessError = true) :
    build_step_run_update status (some f) t =
      Json.obj [("status", Json.str status),
                ("started_at", Json.str (formatTimestamp t)),
                ("finished_at", Json.str (formatTimestamp t)),
                ("failure", Json.obj
                  [("error_code", Json.str f.clsName),
                   ("message", Json.str f.msg),
                   ("details",
                     match f.tracebackStr with
                     | some tb => Json.str tb
                     | none => Json.null)])] := by
  simp [build_step_run_update, buildFailureData, htruthy, hbus]

/-- Witness for C3: a business error named `X` with message `boom`. -/
theorem build_business_failure_witness :
    build_step_run_update "failed" (some ⟨"X", "boom", true, some "<traceback object>", true⟩)
        ⟨2024, 1, 2, 3, 4, 5, 6⟩ =
      Json.obj [("status", Json.str "failed"),
                ("started_at", Json.str "2024-01-02T03:04:05.006Z"),
                ("finished_at", Json.str "2024-01-02T03:04:05.006Z"),
                ("failure", Json.obj
                  [("error_code", Json.str "X"),
                   ("message", Json.str "boom"),
                   ("details", Json.str "<traceback object>")])] :=
  build_business_failure "failed" ⟨2024, 1, 2, 3, 4, 5, 6⟩
    ⟨"X", "boom", true, some "<traceback object>", true⟩ rfl rfl

/-- Claim C4: a present, truthy non-business failure yields the fixed
`ApplicationException` payload, so any two such exceptions (whatever their
class, message, traceback) produce identical payloads and no exception
content reaches the output. -/
theorem build_generic_failure_fixed (status : String) (t : DateTimeUTC) (f g : PyException)
    (hf : f.toBool = true) (hg : g.toBool = true)
    (hbf : f.isBusinessError = false) (hbg : g.isBusinessError = false) :
    build_step_run_update status (some f) t =
      Json.obj [("status", Json.str status),
                ("started_at", Json.str (formatTimestamp t)),
                ("finished_at", Json.str (formatTimestamp t)),
                ("failure", applicationExceptionPayload)] ∧
    build_step_run_update status (some f) t = build_step_run_update status (some g) t := by
  constructor
  · simp [build_step_run_update, buildFailureData, hf, hbf]
  · simp [build_step_run_update, buildFailureData, hf, hbf, hg, hbg]

/-- Witness for C4: two different generic exceptions give the same fixed
payload; the message `secret detail` is nowhere in it. -/
theorem build_generic_failure_fixed_witness :
    (build_step_run_update "failed" (some ⟨"ValueError", "secret detail", false, none, true⟩)
        ⟨2024, 1, 2, 3, 4, 5, 6⟩ =
      Json.obj [("status", Json.str "failed"),
                ("started_at", Json.str (formatTimestamp ⟨2024, 1, 2, 3, 4, 5, 6⟩)),
                ("finished_at", Json.str (formatTimestamp ⟨2024, 1, 2, 3, 4, 5, 6⟩)),
                ("failure", applicationExceptionPayload)]) ∧
    build_step_run_update "failed" (some ⟨"ValueError", "secret detail", false, none, true⟩)
        ⟨2024, 1, 2, 3, 4, 5, 6⟩ =
      build_step_run_update "failed" (some ⟨"TypeError", "other text", false, some "tb", true⟩)
        ⟨2024, 1, 2, 3, 4, 5, 6⟩ :=
  build_generic_failure_fixed "failed" ⟨2024, 1, 2, 3, 4, 5, 6⟩
    ⟨"ValueError", "secret detail", false, none, true⟩
    ⟨"TypeError", "other text", false, some "tb", true⟩ rfl rfl rfl rfl

/-- Claim C5: a success update carries status `success`, a null failure and
one captured timestamp used for both `started_at` and `finished_at`, rendered
as the ISO-8601 millisecond body with a literal trailing `Z` and never with a
`+00:00` suffix. -/
theorem build_success_payload (t : DateTimeUTC) :
    build_step_run_update "success" none t =
      Json.obj [("status", Json.str "success"),
                ("started_at", Json.str (formatTimestamp t)),
                ("finished_at", Json.str (formatTimestamp t)),
                ("failure", Json.null)] ∧
    formatTimestamp t = isoBody t ++ "Z" ∧
    ¬ ∃ l : String, formatTimestamp t = l ++ "+00:00" :=
  ⟨rfl, formatTimestamp_eq t, formatTimestamp_no_offset_suffix t⟩

/-- Claim C6: the payload is a pure function of status, failure and the
captured time; the failure block is one fixed value across times, so two
payloads for the same arguments differ at most in the two timestamp fields. -/
theorem build_update_deterministic (status : String) (failure : Option PyException) :
    ∃ fd : Json, ∀ t : DateTimeUTC,
      build_step_run_update status failure t =
        Json.obj [("status", Json.str status),
                  ("started_at", Json.str (formatTimestamp t)),
                  ("finished_at", Json.str (formatTimestamp t)),
                  ("failure", fd)] :=
  ⟨buildFailureData failure, fun _ => rfl⟩

/-- Claim C7: the update PATCHes the exact payload to
`step-runs/{step_run_id}` in a single call and returns the collaborator's
parsed body and raw status code unchanged. -/
theorem update_step_run_passthrough (client : Client) (step_run_id : Int)
    (update_data : Json) :
    ((update_dashboard_step_run_by_id client step_run_id update_data).1 =
      (client.patch (s!"step-runs/{step_run_id}") update_data).map
        (fun res => (res.json, res.status_code))) ∧
    (update_dashboard_step_run_by_id client step_run_id update_data).2 =
      [CallEvent.httpPatch (s!"step-runs/{step_run_id}") update_data] := by
  unfold update_dashboard_step_run_by_id
  cases h : client.patch (s!"step-runs/{step_run_id}") update_data <;>
    simp [h, Except.map]

/-- Claim C8: the lookups happen in the fixed order process id, step id,
run id, then the GET on `step-runs/run/{run_id}/step/{step_id}` with deleted
rows excluded; a failure at any stage propagates at once with no further
calls and no retry, as the recorded traces show. -/
theorem get_step_run_id_call_order (r : Resolvers) (client : Client)
    (process_name step_name cpr : String) :
    (∀ e, r.get_dashboard_process_id process_name = .error e →
      get_step_run_id_for_process_step_cpr r client process_name step_name cpr =
        (.error e, [.callProcessId process_name])) ∧
    (∀ process_id e, r.get_dashboard_process_id process_name = .ok process_id →
      r.get_dashboard_step_id process_id step_name = .error e →
      get_step_run_id_for_process_step_cpr r client process_name step_name cpr =
        (.error e, [.callProcessId process_name, .callStepId process_id step_name])) ∧
    (∀ process_id step_id e, r.get_dashboard_process_id process_name = .ok process_id →
      r.get_dashboard_step_id process_id step_name = .ok step_id →
      r.get_dashboard_run_id process_id cpr = .error e →
      get_step_run_id_for_process_step_cpr r client process_name step_name cpr =
        (.error e, [.callProcessId process_name, .callStepId process_id step_name,
                    .callRunId process_id cpr])) ∧
    (∀ process_id step_id run_id, r.get_dashboard_process_id process_name = .ok process_id →
      r.get_dashboard_step_id process_id step_name = .ok step_id →
      r.get_dashboard_run_id process_id cpr = .ok run_id →
      (get_step_run_id_for_process_step_cpr r client process_name step_name cpr).2 =
        [.callProcessId process_name, .callStepId process_id step_name,
         .callRunId process_id cpr,
         .httpGet (s!"step-runs/run/{run_id}/step/{step_id}?include_deleted=false")]) := by
  refine ⟨?_, ?_, ?_, ?_⟩
  · intro e he
    unfold get_step_run_id_for_process_step_cpr
    simp [he]
  · intro process_id e hp he
    unfold get_step_run_id_for_process_step_cpr
    simp [hp, he]
  · intro process_id step_id e hp hs he
    unfold get_step_run_id_for_process_step_cpr
    simp [hp, hs, he]
  · intro process_id step_id run_id hp hs hr
    unfold get_step_run_id_for_process_step_cpr
    simp only [hp, hs, hr]
    cases hg : client.get (s!"step-runs/run/{run_id}/step/{step_id}?include_deleted=false") with
    | error e => simp [hg]
    | ok res =>
        simp only [hg]
        cases hid : res.json.get "id" with
        | error e => simp [hid]
        | ok sri =>
            simp only [hid]
            split <;> rfl

/-- Witness for C8: a failing process lookup stops after one call, and a
fully successful chain performs exactly the four calls in order. -/
theorem get_step_run_id_call_order_witness :
    get_step_run_id_for_process_step_cpr failingResolvers witnessClientFound "p" "s" "c" =
      (.error (.other "process not found"), [.callProcessId "p"]) ∧
    (get_step_run_id_for_process_step_cpr witnessResolvers witnessClientFound "p" "s" "c").2 =
      [.callProcessId "p", .callStepId 1 "s", .callRunId 1 "c",
       .httpGet "step-runs/run/3/step/2?include_deleted=false"] :=
  ⟨(get_step_run_id_call_order failingResolvers witnessClientFound "p" "s" "c").1
      (.other "process not found") rfl,
   by
    have h := (get_step_run_id_call_order witnessResolvers witnessClientFound "p" "s" "c").2.2.2
      1 2 3 rfl rfl rfl
    simpa using h⟩

/-- Claim C9: presence of `failure` is decided by truthiness, so a non-None
but boolean-false failure object, business error or not, yields a null
failure field. -/
theorem build_falsy_failure_null (status : String) (t : DateTimeUTC) (f : PyException)
    (h : f.toBool = false) :
    build_step_run_update status (some f) t =
      Json.obj [("status", Json.str status),
                ("started_at", Json.str (formatTimestamp t)),
                ("finished_at", Json.str (formatTimestamp t)),
                ("failure", Json.null)] := by
  simp [build_step_run_update, buildFailureData, h]

/-- Witness for C9: a falsy business error is dropped from the payload. -/
theorem build_falsy_failure_null_witness :
    build_step_run_update "failed" (some ⟨"X", "boom", true, some "tb", false⟩)
        ⟨2024, 1, 2, 3, 4, 5, 6⟩ =
      Json.obj [("status", Json.str "failed"),
                ("started_at", Json.str "2024-01-02T03:04:05.006Z"),
                ("finished_at", Json.str "2024-01-02T03:04:05.006Z"),
                ("failure", Json.null)] :=
  build_falsy_failure_null "failed" ⟨2024, 1, 2, 3, 4, 5, 6⟩
    ⟨"X", "boom", true, some "tb", false⟩ rfl

/-- Claim C10: for every status string and failure argument the payload is a
JSON object with exactly the keys status, started_at, finished_at and
failure, the status value being the input string passed through verbatim. -/
theorem build_update_four_keys (status : String) (failure : Option PyException)
    (t : DateTimeUTC) :
    (build_step_run_update status failure t).keysOf =
      ["status", "started_at", "finished_at", "failure"] ∧
    ∃ fd : Json, build_step_run_update status failure t =
      Json.obj [("status", Json.str status),
                ("started_at", Json.str (formatTimestamp t)),
                ("finished_at", Json.str (formatTimestamp t)),
                ("failure", fd)] :=
  ⟨rfl, buildFailureData failure, rfl⟩
